import Mathlib

/-!
Verification development for the Athenaeum court-booking automation
(`ath-booking.py`): the schedule expander, the release-time waiter, the
slot locator, the acquisition transaction and the booking orchestrator,
shallowly embedded in Lean 4.

Conventions of the embedding:
- Civil datetimes in the site's authoritative timezone
  (America/Los_Angeles) are modelled by `DT`: a day number (days since an
  epoch falling on a Monday, so that the Python `weekday()` convention
  Monday = 0 is `day % 7`) plus a seconds-of-day field.  The timezone
  normalisation performed by `pytz` is outside the embedding: every `DT`
  is already a Los Angeles local time, exactly as the script's
  `invoke_datetime_pst` / `now_tz` values are.
- Python string operations (`strip`, `lower`, `split`, substring `in`)
  are re-implemented structurally over `List Char` so that all
  definitions evaluate inside the kernel.
- DOM state (grid cells, dialog selects, buttons, confirmation links) is
  modelled as explicit data; a Playwright query is a function of that
  data.  Clicks always succeed in the model (no exception paths).
-/

/-! ## Python-style string helpers -/

/-- Characters treated as whitespace by Python `str.strip()` (the subset
that can occur in the configuration strings handled here). -/
def isSpaceChar (c : Char) : Bool :=
  c == ' ' || c == '\t' || c == '\n' || c == '\r'

/-- Python `str.strip()`. -/
def pyStrip (s : String) : String :=
  String.mk (((s.data.dropWhile isSpaceChar).reverse.dropWhile isSpaceChar).reverse)

/-- Python `str.lower()` (ASCII, which is all the script compares). -/
def pyLower (s : String) : String :=
  String.mk (s.data.map Char.toLower)

/-- Split a character list at every occurrence of `c`, keeping empty
pieces, as Python `str.split(sep)` does for a one-character separator. -/
def splitChar (c : Char) : List Char → List (List Char)
  | [] => [[]]
  | x :: xs =>
    match splitChar c xs with
    | [] => [[]]
    | y :: ys => if x == c then [] :: y :: ys else (x :: y) :: ys

/-- Python `s.split(sep)` for a one-character separator. -/
def pySplit (c : Char) (s : String) : List String :=
  (splitChar c s.data).map String.mk

/-- Split at the first occurrence of `c` (Python `s.split(sep, 1)` when
the separator is present); `none` when `c` does not occur in `s`. -/
def breakAtChar (c : Char) : List Char → Option (List Char × List Char)
  | [] => none
  | x :: xs =>
    if x == c then some ([], xs)
    else (breakAtChar c xs).map (fun p => (x :: p.1, p.2))

/-- Python `s.split(sep, 1)` packaged as an `Option`: `none` exactly when
the separator does not occur (Python would return a one-element list). -/
def pySplitFirst (c : Char) (s : String) : Option (String × String) :=
  (breakAtChar c s.data).map (fun p => (String.mk p.1, String.mk p.2))

/-- Does `hay` start with `needle`? -/
def charsStartWith : List Char → List Char → Bool
  | [], _ => true
  | _ :: _, [] => false
  | a :: as, b :: bs => b == a && charsStartWith as bs

/-- Contiguous containment of `needle` in `hay` (JavaScript
`String.includes`, Python `in`). -/
def charsContain (needle : List Char) : List Char → Bool
  | [] => charsStartWith needle []
  | h :: hs => charsStartWith needle (h :: hs) || charsContain needle hs

/-- JavaScript `hay.includes(needle)` / Python `needle in hay`. -/
def strContains (hay needle : String) : Bool :=
  charsContain needle.data hay.data

/-- Python `str.title()` restricted to a single token (the only use in the
script is on a day-name token): lowercase everything, uppercase the first
character. -/
def pyTitle (s : String) : String :=
  match (pyLower s).data with
  | [] => String.mk []
  | c :: cs => String.mk (c.toUpper :: cs)

/-! ## Civil datetimes -/

/-- A Los Angeles local civil datetime: `day` counts days since an epoch
that falls on a Monday (so `day % 7` is Python's `weekday()`), `secs` is
the seconds-of-day. -/
structure DT where
  day : Nat
  secs : Nat
deriving DecidableEq

/-- Total seconds since the epoch; `aware_a - aware_b` in the script is
`(DT.abs a : Int) - (DT.abs b : Int)`. -/
def DT.abs (d : DT) : Nat := d.day * 86400 + d.secs

/-- Python `datetime.weekday()`: Monday = 0 … Sunday = 6. -/
def pythonWeekday (d : DT) : Nat := d.day % 7

/-! ## Release-time waiter (`wait_until_booking_time`) -/

/-- The target-resolution phase of `wait_until_booking_time`
(ath-booking.py lines 1331-1358): build today's occurrence of the target
clock time, and if now is already past it decide between the grace-period
early return (`none`), the midnight-rollover reinterpretation, and the
genuinely-missed case.  The source adds one day in both of the latter two
branches; the branches differ only in what they log. -/
def resolveTargetTime (now : DT) (tgtSecs grace_period_minutes : Nat) : Option DT :=
  if 0 < (DT.abs now : Int) - (DT.abs ⟨now.day, tgtSecs⟩ : Int) then
    if (DT.abs now : Int) - (DT.abs ⟨now.day, tgtSecs⟩ : Int) ≤ grace_period_minutes * 60 then
      none
    else if 12 * 3600 < (DT.abs now : Int) - (DT.abs ⟨now.day, tgtSecs⟩ : Int) then
      some ⟨now.day + 1, tgtSecs⟩
    else
      some ⟨now.day + 1, tgtSecs⟩
  else some ⟨now.day, tgtSecs⟩

/-- The sleep performed after target resolution (ath-booking.py lines
1360-1379): clamp the computed wait at `max_wait` ("SAFETY: Cap wait time
at exactly grace period"), then sleep only when the result is positive. -/
def cappedSleep (wait_seconds max_wait_seconds : Int) : Nat :=
  if 0 < (if max_wait_seconds < wait_seconds then max_wait_seconds else wait_seconds) then
    (if max_wait_seconds < wait_seconds then max_wait_seconds else wait_seconds).toNat
  else 0

/-- The number of seconds `wait_until_booking_time` actually sleeps: the
wait to the resolved target, capped at `grace_period_minutes * 60`, and
slept only when positive.  The grace-period early return sleeps
nothing. -/
def wait_until_booking_time (now : DT) (tgtSecs grace_period_minutes : Nat) : Nat :=
  match resolveTargetTime now tgtSecs grace_period_minutes with
  | none => 0
  | some target =>
    cappedSleep ((DT.abs target : Int) - (DT.abs now : Int)) (grace_period_minutes * 60)

/-- C2: the sleep of the release-time waiter never exceeds the hard cap
`grace_period_minutes * 60` seconds; in particular, invoked at 00:01 with
target 23:01 the same day (now 23 hours before the target) and the
default 10-minute grace period, it sleeps exactly the 600-second cap
rather than ~23 hours. -/
theorem wait_hard_cap :
    (∀ (now : DT) (tgtSecs grace : Nat),
      wait_until_booking_time now tgtSecs grace ≤ grace * 60)
    ∧ wait_until_booking_time ⟨1, 60⟩ 82860 10 = 600 := by
  constructor
  · intro now tgtSecs grace
    unfold wait_until_booking_time
    split
    · exact Nat.zero_le _
    · unfold cappedSleep
      split_ifs <;> omega
  · decide

/-- C3: target resolution of the release-time waiter.  If now is past
today's target clock time by at most the grace period, the waiter returns
immediately and sleeps nothing; if now is past the target by more than
the grace period with a delta magnitude above 12 hours (midnight
rollover), the target is reinterpreted as the next day's occurrence of
that clock time, never yesterday's. -/
theorem wait_target_resolution (now : DT) (tgtSecs grace : Nat) :
    (0 < (DT.abs now : Int) - (DT.abs ⟨now.day, tgtSecs⟩ : Int) →
     (DT.abs now : Int) - (DT.abs ⟨now.day, tgtSecs⟩ : Int) ≤ grace * 60 →
     resolveTargetTime now tgtSecs grace = none ∧
     wait_until_booking_time now tgtSecs grace = 0)
    ∧ (grace * 60 < (DT.abs now : Int) - (DT.abs ⟨now.day, tgtSecs⟩ : Int) →
       12 * 3600 < (DT.abs now : Int) - (DT.abs ⟨now.day, tgtSecs⟩ : Int) →
       resolveTargetTime now tgtSecs grace = some ⟨now.day + 1, tgtSecs⟩) := by
  constructor
  · intro hpos hgrace
    have hres : resolveTargetTime now tgtSecs grace = none := by
      unfold resolveTargetTime
      rw [if_pos hpos, if_pos hgrace]
    exact ⟨hres, by unfold wait_until_booking_time; rw [hres]⟩
  · intro hgrace hroll
    unfold resolveTargetTime
    rw [if_pos (by omega), if_neg (by omega), if_pos hroll]

/-- Witness for C3: invoked 3 minutes past a 00:01:00 target with a
10-minute grace period the waiter sleeps nothing, and invoked at 23:55
(past the 00:01 target by 23h54m, more than 12 hours) the target resolves
to the next day's 00:01, not yesterday's. -/
theorem wait_target_resolution_witness :
    wait_until_booking_time ⟨5, 240⟩ 60 10 = 0
    ∧ resolveTargetTime ⟨5, 86100⟩ 60 10 = some ⟨6, 60⟩ := by
  refine ⟨((wait_target_resolution ⟨5, 240⟩ 60 10).1 (by decide) (by decide)).2, ?_⟩
  exact (wait_target_resolution ⟨5, 86100⟩ 60 10).2 (by decide) (by decide)

/-! ## Schedule expander (`get_booking_list`, `prepare_booking_list_mode`) -/

/-- Day-name table of `get_booking_list` (ath-booking.py lines 1231-1239):
lowercase day name to Python weekday index. -/
def day_names : List (String × Nat) :=
  [("monday", 0), ("tuesday", 1), ("wednesday", 2), ("thursday", 3),
   ("friday", 4), ("saturday", 5), ("sunday", 6)]

/-- Case-normalised day-name lookup. -/
def lookupDay (s : String) : Option Nat := day_names.lookup s

/-- Processing of one `BOOKING_LIST` entry inside the loop of
`get_booking_list` (ath-booking.py lines 1253-1297): strip, skip empties,
split off an optional `|court` suffix, split day token from time string,
validate the day name, and emit the `(day_display, time_str, court_name)`
tuple exactly when the entry's weekday equals `python_weekday`; invalid
entries and other weekdays yield nothing (no error). -/
def bookingEntryFor (python_weekday : Nat) (entry0 : String) :
    Option (String × String × Option String) :=
  if pyStrip entry0 == "" then none
  else
    match pySplitFirst '|' (pyStrip entry0) with
    | some (a, b) =>
      match pySplitFirst ' ' (pyStrip a) with
      | none => none
      | some (dayTok, timeTok) =>
        match lookupDay (pyLower (pyStrip dayTok)) with
        | none => none
        | some w =>
          if w = python_weekday then
            some (pyTitle (pyStrip dayTok), pyStrip timeTok, some (pyStrip b))
          else none
    | none =>
      match pySplitFirst ' ' (pyStrip entry0) with
      | none => none
      | some (dayTok, timeTok) =>
        match lookupDay (pyLower (pyStrip dayTok)) with
        | none => none
        | some w =>
          if w = python_weekday then
            some (pyTitle (pyStrip dayTok), pyStrip timeTok, none)
          else none

/-- Function `get_booking_list(booking_list_str, booking_datetime)` (ath-booking.py
lines 1209-1300), with the datetime already reduced to its Python
weekday: split on commas and process each entry. -/
def get_booking_list (booking_list_str : String) (python_weekday : Nat) :
    List (String × String × Option String) :=
  (pySplit ',' booking_list_str).filterMap (bookingEntryFor python_weekday)

/-- Variable `target_booking_datetime` of `prepare_booking_list_mode`
(ath-booking.py lines 108-118): today's occurrence of the target clock
time, pushed to tomorrow when it precedes the reference time by more than
12 hours (midnight boundary). -/
def target_booking_datetime (reference_time : DT) (tgtSecs : Nat) : DT :=
  if DT.abs ⟨reference_time.day, tgtSecs⟩ < DT.abs reference_time ∧
      12 * 3600 < DT.abs reference_time - DT.abs ⟨reference_time.day, tgtSecs⟩ then
    ⟨reference_time.day + 1, tgtSecs⟩
  else
    ⟨reference_time.day, tgtSecs⟩

/-- Variable `booking_datetime` of `prepare_booking_list_mode` (ath-booking.py
line 126): seven days after the target booking datetime; day-of-week
matching is done against this date. -/
def booking_datetime (reference_time : DT) (tgtSecs : Nat) : DT :=
  ⟨(target_booking_datetime reference_time tgtSecs).day + 7,
   (target_booking_datetime reference_time tgtSecs).secs⟩

/-- Function `prepare_booking_list_mode` (ath-booking.py lines 62-147), reduced to
its program-visible effect: the list of bookings due today, or `none`
(the script exits) when no rule matches.  Date formatting and logging are
omitted. -/
def prepare_booking_list_mode (booking_list_str : String) (reference_time : DT)
    (tgtSecs : Nat) : Option (List (String × String × Option String)) :=
  if (get_booking_list booking_list_str
        (pythonWeekday (booking_datetime reference_time tgtSecs))).isEmpty then
    none
  else
    some (get_booking_list booking_list_str
      (pythonWeekday (booking_datetime reference_time tgtSecs)))

/-- A parsed `BOOKING_LIST` rule: display day name, time string, optional
court selector, and the rule's Python weekday.  Used only to state the
expander's emission property; the parsing steps mirror
`bookingEntryFor`. -/
structure ParsedRule where
  display : String
  time : String
  court : Option String
  weekday : Nat
deriving DecidableEq

/-- The pure parsing part of a `get_booking_list` entry, without the
weekday filter. -/
def parseRule (entry0 : String) : Option ParsedRule :=
  if pyStrip entry0 == "" then none
  else
    match pySplitFirst '|' (pyStrip entry0) with
    | some (a, b) =>
      match pySplitFirst ' ' (pyStrip a) with
      | none => none
      | some (dayTok, timeTok) =>
        match lookupDay (pyLower (pyStrip dayTok)) with
        | none => none
        | some w =>
          some ⟨pyTitle (pyStrip dayTok), pyStrip timeTok, some (pyStrip b), w⟩
    | none =>
      match pySplitFirst ' ' (pyStrip entry0) with
      | none => none
      | some (dayTok, timeTok) =>
        match lookupDay (pyLower (pyStrip dayTok)) with
        | none => none
        | some w =>
          some ⟨pyTitle (pyStrip dayTok), pyStrip timeTok, none, w⟩

/-- An entry is emitted exactly when it parses and its weekday matches. -/
theorem bookingEntryFor_eq_parseRule (pyW : Nat) (e : String) :
    bookingEntryFor pyW e =
      match parseRule e with
      | some r => if r.weekday = pyW then some (r.display, r.time, r.court) else none
      | none => none := by
  unfold bookingEntryFor parseRule
  split
  · rfl
  · repeat' split
    all_goals try cases ‹ParsedRule›
    all_goals simp_all

/-- C1 (amended): a `BOOKING_LIST` rule is emitted by the schedule
expander exactly when it parses and its day-of-week equals the weekday of
`target_booking_datetime + 7 days` — and that weekday is the weekday of
the reference calendar date plus 7 days, except that the date advances by
one more day when the target clock time precedes the reference clock time
by more than 12 hours (midnight rollover).  Rules for other weekdays are
skipped without error. -/
theorem expander_emission (booking_list_str : String) (ref : DT) (tgtSecs : Nat) :
    get_booking_list booking_list_str (pythonWeekday (booking_datetime ref tgtSecs)) =
      (pySplit ',' booking_list_str).filterMap (fun e =>
        match parseRule e with
        | some r =>
          if r.weekday = pythonWeekday (booking_datetime ref tgtSecs) then
            some (r.display, r.time, r.court)
          else none
        | none => none)
    ∧ pythonWeekday (booking_datetime ref tgtSecs) =
        ((if tgtSecs < ref.secs ∧ 12 * 3600 < ref.secs - tgtSecs then
            ref.day + 1
          else ref.day) + 7) % 7 := by
  constructor
  · rw [get_booking_list]
    exact congrArg (fun f => List.filterMap f (pySplit ',' booking_list_str))
      (funext fun e => bookingEntryFor_eq_parseRule _ e)
  · simp only [booking_datetime, target_booking_datetime, pythonWeekday, DT.abs]
    split <;> split <;> simp_all <;> omega

/-- Counterexample to C1 as stated: invoked on a Monday (epoch day 0) at
23:55 with target time 00:01:00, the rule "Monday 7:00 PM" has weekday 0,
which equals the weekday of reference_date + 7 days (also a Monday), yet
the expander emits nothing (it returns the empty-schedule exit): the code
matches against reference_date + 8 days because of the midnight
rollover. -/
theorem expander_emission_counterexample :
    parseRule "Monday 7:00 PM" = some ⟨"Monday", "7:00 PM", none, 0⟩
    ∧ pythonWeekday ⟨0 + 7, 86100⟩ = 0
    ∧ prepare_booking_list_mode "Monday 7:00 PM" ⟨0, 86100⟩ 60 = none := by
  refine ⟨by decide, by decide, by decide⟩

/-! ## Slot locator (the grid scan of `book_court`) -/

/-- The slot `div` found inside a grid cell
(`div.rbm_TimeSlotPanelSlotAvailable, div.rbm_TimeSlotPanelNoSlots`):
its `onclick` attribute (`none` when absent), its inner text, and the
inner text of the enclosing table row. -/
structure SlotDiv where
  onclick : Option String
  text : String
  rowText : String
deriving DecidableEq

/-- One `td[class*="rbm_"]` cell: the first matching slot `div` inside
it, if any. -/
structure GridCell where
  slotDiv : Option SlotDiv
deriving DecidableEq

/-- "Check if it has onclick (means it's bookable)" (ath-booking.py lines
577-580): absent or empty `onclick` means not bookable. -/
def divBookable (d : SlotDiv) : Bool :=
  match d.onclick with
  | none => false
  | some oc => !(oc == "")

/-- The per-cell test of the scan loop (ath-booking.py lines 569-610):
skip cells without a slot div, without an interactive `onclick`, whose
text does not contain the court name, or whose row text does not contain
the start time. -/
def cellMatch (court_name start_time : String) (c : GridCell) : Option SlotDiv :=
  match c.slotDiv with
  | none => none
  | some d =>
    if !divBookable d then none
    else if !strContains d.text court_name then none
    else if strContains d.rowText start_time then some d
    else none

/-- The scan loop itself: first matching cell in document order wins
(`break`), cells that fail any test are skipped, and an exhausted loop
leaves `booking_link = None` (the NO AVAILABLE SLOT FOUND path, returned
as `False`, not an exception). -/
def findBookingLink (cells : List GridCell) (court_name start_time : String) :
    Option SlotDiv :=
  match cells with
  | [] => none
  | c :: rest =>
    match cellMatch court_name start_time c with
    | some d => some d
    | none => findBookingLink rest court_name start_time

/-- A cell all of whose court-matching slot divs are non-interactive is
skipped by the scan. -/
theorem cellMatch_none_of_not_bookable (court_name start_time : String)
    (c : GridCell)
    (h : ∀ dv, c.slotDiv = some dv → strContains dv.text court_name = true →
      divBookable dv = false) :
    cellMatch court_name start_time c = none := by
  unfold cellMatch
  cases hc : c.slotDiv with
  | none => rfl
  | some dv =>
    by_cases hb : divBookable dv
    · by_cases hcontains : strContains dv.text court_name
      · exact absurd (h dv hc hcontains) (by simp [hb])
      · simp [hb, hcontains]
    · simp [hb]

/-- C6: the slot locator skips cells lacking an interactive indicator
rather than erroring: if every cell whose slot text contains the
requested court lacks an interactive `onclick` (whatever its time row),
the scan returns no slot (the NotFound outcome); and if some cell passes
all filters and it is the only one that does, the scan returns exactly
that cell's slot div. -/
theorem slot_locator_spec (cells : List GridCell) (court_name start_time : String)
    (d : SlotDiv) :
    ((∀ c ∈ cells, ∀ dv, c.slotDiv = some dv →
        strContains dv.text court_name = true → divBookable dv = false) →
      findBookingLink cells court_name start_time = none)
    ∧ (((∃ c ∈ cells, cellMatch court_name start_time c = some d) ∧
        (∀ c ∈ cells, ∀ dv, cellMatch court_name start_time c = some dv → dv = d)) →
      findBookingLink cells court_name start_time = some d) := by
  induction cells with
  | nil =>
    refine ⟨fun _ => rfl, fun h => ?_⟩
    obtain ⟨⟨c, hc, _⟩, _⟩ := h
    cases hc
  | cons c rest ih =>
    constructor
    · intro h
      unfold findBookingLink
      rw [cellMatch_none_of_not_bookable court_name start_time c
        (h c (List.mem_cons_self c rest))]
      exact ih.1 (fun c0 hc0 => h c0 (List.mem_cons_of_mem c hc0))
    · rintro ⟨⟨c0, hc0, hm0⟩, huniq⟩
      unfold findBookingLink
      cases hmatch : cellMatch court_name start_time c with
      | some dv =>
        rw [huniq c (List.mem_cons_self c rest) dv hmatch]
      | none =>
        rcases List.mem_cons.mp hc0 with hhead | htail
        · subst hhead
          rw [hm0] at hmatch
          cases hmatch
        · exact ih.2 ⟨⟨c0, htail, hm0⟩,
            fun c1 hc1 dv hdv => huniq c1 (List.mem_cons_of_mem c hc1) dv hdv⟩

/-- Witness for C6: on a grid whose only cell matches the court but has
no `onclick`, the locator finds nothing; on a grid with one interactive
cell matching court and time, it returns that cell. -/
theorem slot_locator_spec_witness :
    findBookingLink
      [⟨some ⟨none, "North Pickleball Court", "7:00 PM row"⟩⟩]
      "North Pickleball Court" "7:00 PM" = none
    ∧ findBookingLink
        [⟨some ⟨some "doBook()", "North Pickleball Court", "7:00 PM row"⟩⟩]
        "North Pickleball Court" "7:00 PM" =
      some ⟨some "doBook()", "North Pickleball Court", "7:00 PM row"⟩ := by
  constructor
  · refine (slot_locator_spec _ "North Pickleball Court" "7:00 PM"
      ⟨none, "", ""⟩).1 ?_
    intro c hc dv hdv _
    rw [List.mem_singleton] at hc
    subst hc
    cases hdv
    rfl
  · refine (slot_locator_spec _ "North Pickleball Court" "7:00 PM"
      ⟨some "doBook()", "North Pickleball Court", "7:00 PM row"⟩).2 ⟨?_, ?_⟩
    · exact ⟨_, List.mem_singleton.mpr rfl, by decide⟩
    · intro c hc dv hdv
      rw [List.mem_singleton] at hc
      subst hc
      have : cellMatch "North Pickleball Court" "7:00 PM"
          ⟨some ⟨some "doBook()", "North Pickleball Court", "7:00 PM row"⟩⟩ =
          some ⟨some "doBook()", "North Pickleball Court", "7:00 PM row"⟩ := by decide
      rw [this] at hdv
      cases hdv
      rfl

/-! ## Acquisition transaction (the dialog flow of `book_court`) -/

/-- One `select` element of the booking sub-document, as gathered by the
`select_info` script (ath-booking.py lines 716-735): computed visibility,
the currently displayed option text, and all option texts. -/
structure SelectInfo where
  visible : Bool
  currentText : String
  options : List String
deriving DecidableEq

/-- Field `hasMinutes` of `select_info`: some option text contains "Minutes" or
"minutes". -/
def hasMinutesOpt (si : SelectInfo) : Bool :=
  si.options.any (fun o => strContains o "Minutes" || strContains o "minutes")

/-- The Telerik RadComboBox fallback widget: its item texts and its
displayed text. -/
structure TelerikCombo where
  items : List String
  text : String
deriving DecidableEq

/-- The booking dialog: the `select` elements and, when present, the
Telerik combo (`none` when the combo input is not found). -/
structure BookingDialog where
  selects : List SelectInfo
  combo : Option TelerikCombo
deriving DecidableEq

/-- Duration dropdown choice (ath-booking.py lines 742-755): the first
visible select with minute options, else the first select with minute
options at all. -/
def findDurationIdx (selects : List SelectInfo) : Option Nat :=
  match selects.findIdx? (fun si => hasMinutesOpt si && si.visible) with
  | some i => some i
  | none => selects.findIdx? hasMinutesOpt

/-- The duration-configuration step (ath-booking.py lines 757-838),
summarised by the displayed duration text it leaves behind and whether
the path reported success.  The plain-select path picks the first option
text containing the requested duration (in-iframe script, lines
763-776); the Telerik path picks the last matching item and sets the
combo text to it (lines 791-827).  On failure each path merely logs an
error and leaves the displayed text unchanged; `(none, false)` covers
the unreachable out-of-range index and the absent combo input. -/
def configureDuration (dlg : BookingDialog) (duration_minutes : String) :
    Option String × Bool :=
  match findDurationIdx dlg.selects with
  | some i =>
    match dlg.selects.get? i with
    | some si =>
      match si.options.find? (fun o => strContains o duration_minutes) with
      | some o => (some o, true)
      | none => (some si.currentText, false)
    | none => (none, false)
  | none =>
    match dlg.combo with
    | some c =>
      match c.items.reverse.find? (fun o => strContains o duration_minutes) with
      | some o => (some o, true)
      | none => (some c.text, false)
    | none => (none, false)

/-- An element of the booking sub-document as seen by the submit-button
scripts: tag name, visible text, `id` and `onclick` attributes. -/
structure PageEl where
  tag : String
  text : String
  id : String
  onclick : String
deriving DecidableEq

/-- PRIORITY 0 (ath-booking.py lines 866-879):
`document.querySelector('[id*="lbBook"]')`. -/
def findButtonById (els : List PageEl) : Option PageEl :=
  els.find? (fun e => strContains e.id "lbBook")

/-- Variable `button_info` (ath-booking.py lines 1020-1054): all elements whose
`onclick` contains `__doPostBack`, filtered to those containing
`lbBook`. -/
def postbackBookButtons (els : List PageEl) : List PageEl :=
  (els.filter (fun e => strContains e.onclick "__doPostBack")).filter
    (fun e => strContains e.onclick "lbBook")

/-- The three-priority submit-button search (ath-booking.py lines
1069-1114): onclick pattern, then reservation label text excluding
negative affordance words, then submit-like controls. -/
def reservationBtnIdx (btns : List PageEl) : Option Nat :=
  match btns.findIdx? (fun e =>
      strContains (pyLower e.onclick) "__dopostback" &&
      strContains (pyLower e.onclick) "lbbook") with
  | some i => some i
  | none =>
    match btns.findIdx? (fun e =>
        (["make reservation", "create reservation", "reserve"].any
          (fun k => strContains (pyLower e.text) k)) &&
        !(["cancel", "close", "discard", "delete", "minimize"].any
          (fun k => strContains (pyLower e.text) k))) with
    | some i => some i
    | none =>
      btns.findIdx? (fun e =>
        (e.tag == "INPUT" || strContains (pyLower e.text) "submit" ||
          pyLower e.text == "ok") &&
        !(["cancel", "close", "discard", "minimize", "delete"].any
          (fun k => strContains (pyLower e.text) k)) &&
        !(["min", "cancel", "close"].any
          (fun k => strContains (pyLower e.onclick) k)))

/-- Result of the submit phase: whether a submit control was clicked and
whether the flow went on to attempt closing the confirmation dialog
(only the by-id path does; the JS-click path returns without any close
attempt). -/
structure SubmitResult where
  submitClicked : Bool
  closeAttempted : Bool
deriving DecidableEq

/-- The submit phase (ath-booking.py lines 865-1146): the by-id button is
clicked directly and followed by the close-dialog flow; otherwise the
prioritised search over `postbackBookButtons` is clicked through the
in-iframe script (which succeeds exactly when the index is in range);
with no candidate at all nothing is clicked (and `book_court` still
returns `True`). -/
def submitPhase (els : List PageEl) : SubmitResult :=
  match findButtonById els with
  | some _ => ⟨true, true⟩
  | none =>
    match reservationBtnIdx (postbackBookButtons els) with
    | some i => ⟨decide (i < (postbackBookButtons els).length), false⟩
    | none => ⟨false, false⟩

/-- A close-control candidate returned by one of the `close_selectors`
queries (ath-booking.py lines 905-919): only its visibility matters. -/
structure CloseEl where
  visible : Bool
deriving DecidableEq

/-- The confirmation-dialog state: per-selector query results in the
sub-document and the main document, and the link texts used by the
JavaScript fallback. -/
structure ConfirmDocs where
  frameSelHits : List (Option CloseEl)
  mainSelHits : List (Option CloseEl)
  frameLinkTexts : List String
  mainLinkTexts : List String
deriving DecidableEq

/-- One pass over the `close_selectors` list (ath-booking.py lines
924-956): a selector whose query returned a visible element gets
clicked. -/
def tryCloseSelList (hits : List (Option CloseEl)) : Bool :=
  hits.any (fun h =>
    match h with
    | some e => e.visible
    | none => false)

/-- The JavaScript fallback (ath-booking.py lines 958-1000): click the
first link whose lowercased text contains "click here" or "close". -/
def jsCloseLinks (texts : List String) : Bool :=
  texts.any (fun t =>
    strContains (pyLower t) "click here" || strContains (pyLower t) "close")

/-- Whether the confirmation dialog got closed: selectors in the iframe,
then in the main page, then the JS fallback in both.  When all fail the
script only logs "Could not find close button". -/
def closeConfirmation (docs : ConfirmDocs) : Bool :=
  tryCloseSelList docs.frameSelHits || tryCloseSelList docs.mainSelHits ||
    jsCloseLinks docs.frameLinkTexts || jsCloseLinks docs.mainLinkTexts

/-- All page state consumed by one `book_court` call. -/
structure BookInput where
  cells : List GridCell
  dialog : BookingDialog
  els : List PageEl
  confirm : ConfirmDocs
deriving DecidableEq

/-- The observable outcome of one `book_court` call. -/
structure BookRes where
  slotFound : Bool
  reported : Option (String × String × String)
  slotClicked : Bool
  durationSetOk : Bool
  durationDisplayed : Option String
  submitClicked : Bool
  confirmationClosed : Bool
  success : Bool
deriving DecidableEq

/-- Method `book_court` (ath-booking.py lines 482-1184) after the date has been
entered: scan the grid; with no match return `False` (NO AVAILABLE SLOT
FOUND).  With a match, report the slot (court text, time, date); in
safety mode stop there and return `True` without clicking anything.
Otherwise click the slot, configure the duration (proceeding even on
failure), run the submit phase and, on the by-id path, the
confirmation-close flow; every one of these paths returns `True`. -/
def book_court (inp : BookInput) (safety_mode : Bool)
    (court_name start_time date_str duration_minutes : String) : BookRes :=
  match findBookingLink inp.cells court_name start_time with
  | none =>
    ⟨false, none, false, false, none, false, false, false⟩
  | some d =>
    if safety_mode then
      ⟨true, some (d.text, start_time, date_str), false, false, none, false, false, true⟩
    else
      ⟨true, some (d.text, start_time, date_str), true,
       (configureDuration inp.dialog duration_minutes).2,
       (configureDuration inp.dialog duration_minutes).1,
       (submitPhase inp.els).submitClicked,
       (submitPhase inp.els).closeAttempted && closeConfirmation inp.confirm,
       true⟩

/-- When a duration path reports success, the displayed duration text is
an option text containing the requested duration. -/
theorem configureDuration_contains (dlg : BookingDialog) (dur : String) :
    (configureDuration dlg dur).2 = true →
    ∃ o, (configureDuration dlg dur).1 = some o ∧ strContains o dur = true := by
  unfold configureDuration
  split
  · split
    · split
      · rename_i o heq
        intro _
        exact ⟨o, rfl, by simpa using List.find?_some heq⟩
      · intro h
        simp at h
    · intro h
      simp at h
  · split
    · split
      · rename_i o heq
        intro _
        exact ⟨o, rfl, by simpa using List.find?_some heq⟩
      · intro h
        simp at h
    · intro h
      simp at h

/-- C4 (amended): whichever duration path ran, if it reported success
then the displayed duration text contains the requested value when the
transaction goes on to the submit search.  (The convergence is however
not enforced: on failure the code only logs and still proceeds, see the
counterexample.) -/
theorem duration_convergence_on_success (inp : BookInput)
    (court_name start_time date_str duration_minutes : String)
    (h : (book_court inp false court_name start_time date_str
      duration_minutes).durationSetOk = true) :
    ∃ disp,
      (book_court inp false court_name start_time date_str
        duration_minutes).durationDisplayed = some disp
      ∧ strContains disp duration_minutes = true := by
  revert h
  unfold book_court
  split
  · intro h
    simp at h
  · intro h
    exact configureDuration_contains _ _ h

/-- Witness for C4's amended theorem: with a visible duration dropdown
offering "120 Minutes", the transaction displays a duration text
containing "120". -/
theorem duration_convergence_witness :
    ∃ disp,
      (book_court
        ⟨[⟨some ⟨some "doBook()", "North Pickleball Court", "7:00 PM row"⟩⟩],
         ⟨[⟨true, "60 Minutes", ["60 Minutes", "120 Minutes"]⟩], none⟩,
         [⟨"A", "Make Reservation", "ctl_lbBook", ""⟩],
         ⟨[], [], [], []⟩⟩
        false "North Pickleball Court" "7:00 PM" "01/20/2026" "120").durationDisplayed
        = some disp
      ∧ strContains disp "120" = true :=
  duration_convergence_on_success _ _ _ _ _ (by decide)

/-- Counterexample to C4 as stated: a dialog whose only duration options
are "30 Minutes" and "60 Minutes" cannot satisfy a requested duration of
"120", yet the transaction still reaches and clicks the submit control
with the displayed duration text not containing the requested value —
submission is reached with the postcondition unestablished. -/
theorem duration_convergence_counterexample :
    (book_court
      ⟨[⟨some ⟨some "doBook()", "North Pickleball Court", "7:00 PM row"⟩⟩],
       ⟨[⟨true, "30 Minutes", ["30 Minutes", "60 Minutes"]⟩], none⟩,
       [⟨"A", "Make Reservation", "ctl_lbBook", ""⟩],
       ⟨[], [], [], []⟩⟩
      false "North Pickleball Court" "7:00 PM" "01/20/2026" "120").submitClicked = true
    ∧ (book_court
        ⟨[⟨some ⟨some "doBook()", "North Pickleball Court", "7:00 PM row"⟩⟩],
         ⟨[⟨true, "30 Minutes", ["30 Minutes", "60 Minutes"]⟩], none⟩,
         [⟨"A", "Make Reservation", "ctl_lbBook", ""⟩],
         ⟨[], [], [], []⟩⟩
        false "North Pickleball Court" "7:00 PM" "01/20/2026" "120").durationDisplayed
        = some "30 Minutes"
    ∧ strContains "30 Minutes" "120" = false := by
  refine ⟨by decide, by decide, by decide⟩

/-- C7: once the submit control has been clicked, failing to find or
click a close control for the confirmation dialog (in both the
sub-document and the main document, `confirmationClosed = false`) never
changes the transaction's reported outcome from Success. -/
theorem confirmation_close_failure_keeps_success (inp : BookInput)
    (court_name start_time date_str duration_minutes : String)
    (h1 : (book_court inp false court_name start_time date_str
      duration_minutes).submitClicked = true)
    (h2 : (book_court inp false court_name start_time date_str
      duration_minutes).confirmationClosed = false) :
    (book_court inp false court_name start_time date_str
      duration_minutes).success = true := by
  revert h1
  unfold book_court
  split
  · intro h1
    simp at h1
  · intro _
    rfl

/-- Witness for C7: a run whose dialog has a by-id submit button but no
findable close control still reports success. -/
theorem confirmation_close_failure_witness :
    (book_court
      ⟨[⟨some ⟨some "doBook()", "North Pickleball Court", "7:00 PM row"⟩⟩],
       ⟨[⟨true, "60 Minutes", ["60 Minutes", "120 Minutes"]⟩], none⟩,
       [⟨"A", "Make Reservation", "ctl_lbBook", ""⟩],
       ⟨[], [], [], []⟩⟩
      false "North Pickleball Court" "7:00 PM" "01/20/2026" "120").success = true :=
  confirmation_close_failure_keeps_success _ _ _ _ _ (by decide) (by decide)

/-- C9: with the safety flag set and a bookable slot found, the
transaction stops just before submission: it reports the slot that would
have been booked (court, time, date) and performs no click on the slot
or any dialog control. -/
theorem safety_mode_stops_before_submission (inp : BookInput)
    (court_name start_time date_str duration_minutes : String) (d : SlotDiv)
    (hfound : findBookingLink inp.cells court_name start_time = some d) :
    book_court inp true court_name start_time date_str duration_minutes =
      ⟨true, some (d.text, start_time, date_str), false, false, none,
       false, false, true⟩ := by
  unfold book_court
  rw [hfound]
  simp

/-- Witness for C9: a concrete grid with a bookable matching slot, booked
in safety mode. -/
theorem safety_mode_stops_witness :
    book_court
      ⟨[⟨some ⟨some "doBook()", "North Pickleball Court", "7:00 PM row"⟩⟩],
       ⟨[⟨true, "60 Minutes", ["60 Minutes", "120 Minutes"]⟩], none⟩,
       [⟨"A", "Make Reservation", "ctl_lbBook", ""⟩],
       ⟨[], [], [], []⟩⟩
      true "North Pickleball Court" "7:00 PM" "01/20/2026" "120" =
      ⟨true, some ("North Pickleball Court", "7:00 PM", "01/20/2026"), false, false,
       none, false, false, true⟩ :=
  safety_mode_stops_before_submission _ _ _ _ _
    ⟨some "doBook()", "North Pickleball Court", "7:00 PM row"⟩ (by decide)

/-- The `SAFETY_MODE` environment parse
(`os.getenv('SAFETY_MODE', 'True').lower() != 'false'`, ath-booking.py
lines 634 and 1398): `v` is the raw environment value, `none` when the
variable is unset. -/
def SAFETY_MODE_of (v : Option String) : Bool :=
  !(pyLower (v.getD "True") == "false")

/-- C10: the safety flag defaults to on — it is off exactly when the
environment value lowercases to "false"; whenever it is on (unset,
empty, "0", "no", "off", …) the transaction clicks neither slot nor
submit control, so no booking is submitted. -/
theorem safety_default_on (v : Option String) (inp : BookInput)
    (court_name start_time date_str duration_minutes : String) :
    (SAFETY_MODE_of v = false ↔ ∃ s, v = some s ∧ pyLower s = "false")
    ∧ (SAFETY_MODE_of v = true →
       (book_court inp (SAFETY_MODE_of v) court_name start_time date_str
         duration_minutes).submitClicked = false
       ∧ (book_court inp (SAFETY_MODE_of v) court_name start_time date_str
           duration_minutes).slotClicked = false) := by
  constructor
  · cases v with
    | none =>
      have h : SAFETY_MODE_of none = true := by decide
      simp [h]
    | some s =>
      constructor
      · intro h
        refine ⟨s, rfl, ?_⟩
        have h' : (pyLower s == "false") = true := by
          cases hb : (pyLower s == "false") with
          | true => rfl
          | false => rw [SAFETY_MODE_of, Option.getD, hb] at h; cases h
        exact eq_of_beq h'
      · rintro ⟨t, ht, hlow⟩
        cases ht
        rw [SAFETY_MODE_of]
        simp [hlow]
  · intro hs
    rw [hs]
    unfold book_court
    split
    · exact ⟨rfl, rfl⟩
    · exact ⟨rfl, rfl⟩

/-- Witness for C10: `SAFETY_MODE=off` leaves safety mode on, and the
resulting run clicks no submit control. -/
theorem safety_default_on_witness :
    SAFETY_MODE_of (some "off") = true
    ∧ (book_court
        ⟨[⟨some ⟨some "doBook()", "North Pickleball Court", "7:00 PM row"⟩⟩],
         ⟨[], none⟩, [], ⟨[], [], [], []⟩⟩
        (SAFETY_MODE_of (some "off"))
        "North Pickleball Court" "7:00 PM" "01/20/2026" "120").submitClicked = false := by
  have hs : SAFETY_MODE_of (some "off") = true := by decide
  exact ⟨hs,
    ((safety_default_on (some "off")
      ⟨[⟨some ⟨some "doBook()", "North Pickleball Court", "7:00 PM row"⟩⟩],
       ⟨[], none⟩, [], ⟨[], [], [], []⟩⟩
      "North Pickleball Court" "7:00 PM" "01/20/2026" "120").2 hs).1⟩

/-! ## Booking orchestrator (the loop of `main`) -/

/-- Status of one concrete booking attempt: `book_court` returned `True`,
returned `False`, or raised (ath-booking.py lines 1504-1543). -/
inductive BStatus
  | success
  | failed
  | error
deriving DecidableEq

/-- One record of `booking_details`: status plus the
court/date/time/duration of the attempt. -/
structure BookingDetail where
  status : BStatus
  court : String
  date : String
  time : String
  duration : String
deriving DecidableEq

/-- Variable `courts_to_book` for one entry (ath-booking.py lines 1479-1490): a
truthy court override from the booking list wins over the `COURT_NAME`
environment variable, and the sentinel "both" (case-insensitive) expands
to the two pickleball courts in declared order. -/
def courtsToBook (court_override : Option String) (envCourtName : String) :
    List String :=
  match court_override with
  | some c =>
    if !(c == "") then
      if pyLower c == "both" then
        ["North Pickleball Court", "South Pickleball Court"]
      else [c]
    else
      if pyLower envCourtName == "both" then
        ["North Pickleball Court", "South Pickleball Court"]
      else [envCourtName]
  | none =>
    if pyLower envCourtName == "both" then
      ["North Pickleball Court", "South Pickleball Court"]
    else [envCourtName]

/-- The mutable state of the booking loop: the two counters, the
`booking_details` list, the `courts_to_book` variable as left by the
most recent iteration, and how many attempts have run (used to index the
outcome oracle). -/
structure RunState where
  successful : Nat
  failed : Nat
  details : List BookingDetail
  lastCourts : List String
  attemptIdx : Nat
deriving DecidableEq

/-- One `book_court` attempt in the loop (ath-booking.py lines
1504-1543): exactly one counter is bumped (`failed` covers both the
`False` return and the exception path) and exactly one detail record is
appended, whose status is the attempt's outcome. -/
def bookOne (oracle : Nat → BStatus) (date duration time : String)
    (st : RunState) (court : String) : RunState :=
  ⟨st.successful + (if oracle st.attemptIdx = BStatus.success then 1 else 0),
   st.failed + (if oracle st.attemptIdx = BStatus.success then 0 else 1),
   st.details ++ [⟨oracle st.attemptIdx, court, date, time, duration⟩],
   st.lastCourts,
   st.attemptIdx + 1⟩

/-- The booking loop of `main` (ath-booking.py lines 1465-1547) over the
entries emitted by the schedule expander, with `oracle` supplying each
attempt's outcome: per entry, compute `courts_to_book` and book each
court in order.  `lastCourts` keeps the loop variable's final value,
which is what the summary reads after the loop. -/
def runEntries (entries : List (String × String × Option String))
    (envCourtName date duration : String) (oracle : Nat → BStatus) : RunState :=
  entries.foldl (fun st e =>
    { (courtsToBook e.2.2 envCourtName).foldl (bookOne oracle date duration e.2.1) st with
        lastCourts := courtsToBook e.2.2 envCourtName })
    ⟨0, 0, [], [], 0⟩

/-- The terminal summary (ath-booking.py lines 1549-1568):
`total_attempts = len(to_book_list) * len(courts_to_book)` is computed
after the loop from the last iteration's `courts_to_book`. -/
structure BookingSummary where
  time_slots : Nat
  courts_per_slot : Nat
  total_attempts : Nat
  successful : Nat
  failed : Nat
  details : List BookingDetail
deriving DecidableEq

/-- Dictionary `booking_summary` as built by `main`. -/
def booking_summary (entries : List (String × String × Option String))
    (envCourtName date duration : String) (oracle : Nat → BStatus) : BookingSummary :=
  ⟨entries.length,
   (runEntries entries envCourtName date duration oracle).lastCourts.length,
   entries.length * (runEntries entries envCourtName date duration oracle).lastCourts.length,
   (runEntries entries envCourtName date duration oracle).successful,
   (runEntries entries envCourtName date duration oracle).failed,
   (runEntries entries envCourtName date duration oracle).details⟩

/-- C5 evaluated at the failing input: two same-day entries, the first
expanding to both courts and the second to one, every attempt
succeeding.  Three attempts are made (successful + failed = 3, three
outcome records), yet the summary's attempted count is
2 * 1 = 2 because `total_attempts` is computed from the last
iteration's `courts_to_book`.  The claimed invariant
`attempted = successful + failed = number of outcome records` fails. -/
theorem summary_inconsistency_eval :
    (booking_summary
      [("Tuesday", "7:00 PM", some "Both"),
       ("Tuesday", "8:00 PM", some "North Pickleball Court")]
      "North Pickleball Court" "01/20/2026" "120"
      (fun _ => BStatus.success)).total_attempts = 2
    ∧ (booking_summary
        [("Tuesday", "7:00 PM", some "Both"),
         ("Tuesday", "8:00 PM", some "North Pickleball Court")]
        "North Pickleball Court" "01/20/2026" "120"
        (fun _ => BStatus.success)).successful +
      (booking_summary
        [("Tuesday", "7:00 PM", some "Both"),
         ("Tuesday", "8:00 PM", some "North Pickleball Court")]
        "North Pickleball Court" "01/20/2026" "120"
        (fun _ => BStatus.success)).failed = 3
    ∧ (booking_summary
        [("Tuesday", "7:00 PM", some "Both"),
         ("Tuesday", "8:00 PM", some "North Pickleball Court")]
        "North Pickleball Court" "01/20/2026" "120"
        (fun _ => BStatus.success)).details.length = 3 := by
  refine ⟨by decide, by decide, by decide⟩

/-- C8: an entry whose court selector lowercases to "both" expands to
exactly two attempts sharing date, time and duration and differing only
in court, processed in the declared order: North Pickleball Court first,
then South Pickleball Court. -/
theorem both_expands_two_courts (day time s envCourtName date duration : String)
    (oracle : Nat → BStatus) (h : pyLower s = "both") :
    courtsToBook (some s) envCourtName =
      ["North Pickleball Court", "South Pickleball Court"]
    ∧ (runEntries [(day, time, some s)] envCourtName date duration oracle).details =
      [⟨oracle 0, "North Pickleball Court", date, time, duration⟩,
       ⟨oracle 1, "South Pickleball Court", date, time, duration⟩] := by
  have hne : (s == "") = false := by
    cases hb : (s == "") with
    | false => rfl
    | true =>
      have hs : s = "" := eq_of_beq hb
      subst hs
      exact absurd h (by decide)
  have hboth : (pyLower s == "both") = true := beq_iff_eq.mpr h
  have hc : courtsToBook (some s) envCourtName =
      ["North Pickleball Court", "South Pickleball Court"] := by
    simp [courtsToBook, hne, hboth]
  refine ⟨hc, ?_⟩
  simp [runEntries, hc, bookOne]

/-- Witness for C8: the entry "Tuesday 7:00 PM|Both" yields exactly the
North-then-South pair of attempt records. -/
theorem both_expands_two_courts_witness :
    (runEntries [("Tuesday", "7:00 PM", some "Both")]
      "North Pickleball Court" "01/20/2026" "120"
      (fun _ => BStatus.success)).details =
      [⟨BStatus.success, "North Pickleball Court", "01/20/2026", "7:00 PM", "120"⟩,
       ⟨BStatus.success, "South Pickleball Court", "01/20/2026", "7:00 PM", "120"⟩] :=
  (both_expands_two_courts "Tuesday" "7:00 PM" "Both" "North Pickleball Court"
    "01/20/2026" "120" (fun _ => BStatus.success) (by decide)).2
